import Mathlib

/-
Verification of qq (src/qq.py), a command-line assistant that turns a
natural-language question into a shell command via a chat-completion API.
This file shallowly embeds the pure/deterministic parts of qq.py that the
specification claims are about: environment description, the response
validator of ask_chat_completion_question and ask_chat_completion_explanation,
the exception handling of openai_chat_completion, configuration resolution
(get_config_value), and the history-append behaviour of quickquestion.
Host state, provider responses and exceptions are explicit inputs; calls that
the Python code makes to the OS, psutil, the openai client or sqlite are
modelled as data already obtained, and process exits and uncaught Python
exceptions are modelled as distinguished outcome constructors.
-/

namespace QQ

/-- A JSON value as produced by the Python stdlib json.loads. An integer
literal decodes to num. A literal with a fraction or an exponent decodes in
Python to a float; it is modelled as real m e, the exact decimal value m
times ten to the e that the literal denotes before conversion to a machine
float. The conversion (rounding, overflow to an infinity) is not modelled:
the embedded program never computes with decoded numbers, it only tests
membership and truthiness, and those agree on the pre-rounding reading
(the mantissa is zero exactly when the float is zero). The constants NaN,
Infinity and -Infinity, which the Python decoder accepts, decode to nan
and infinity. An object keeps its raw member list; the Python dict
semantics, where a later duplicate key overwrites an earlier one, are
recovered by dictGet and the membership scan below, through which every
modelled use of a decoded object goes. -/
inductive Json where
  | null : Json
  | bool (b : Bool) : Json
  | num (n : Int) : Json
  | real (m : Int) (e : Int) : Json
  | nan : Json
  | infinity (neg : Bool) : Json
  | str (s : String) : Json
  | arr (elems : List Json) : Json
  | obj (fields : List (String × Json)) : Json

/-- Python dict lookup for an object decoded by json.loads: with duplicate
keys, json.loads keeps the last binding, so lookup prefers the last match. -/
def dictGet (fields : List (String × Json)) (key : String) : Option Json :=
  match fields with
  | [] => none
  | (k, v) :: rest =>
    match dictGet rest key with
    | some r => some r
    | none => if k = key then some v else none

/-- Skip JSON whitespace (space, tab, newline, carriage return). -/
def skipWs : List Char → List Char
  | [] => []
  | c :: rest =>
    if c = ' ' ∨ c = '\t' ∨ c = '\n' ∨ c = '\r' then skipWs rest else c :: rest

/-- The value of a hexadecimal digit, accepting both letter cases. -/
def hexDigitVal (c : Char) : Option Nat :=
  if '0' ≤ c ∧ c ≤ '9' then some (c.toNat - 48)
  else if 'a' ≤ c ∧ c ≤ 'f' then some (c.toNat - 87)
  else if 'A' ≤ c ∧ c ≤ 'F' then some (c.toNat - 55)
  else none

/-- Parse the body of a JSON string after the opening quote, as the strict
Python decoder does: the single-character escapes, unicode escapes of four
hexadecimal digits with a high surrogate combining with a following low
surrogate escape into one code point, and plain characters, where an
unescaped control character (code below 0x20) is rejected. A lone surrogate
escape, which the Python decoder keeps as an unpaired surrogate in the
result, has no counterpart among Lean strings (Lean characters are unicode
scalar values) and is rejected; no modelled payload contains one. -/
def parseStringAux : List Char → List Char → Option (String × List Char)
  | acc, '"' :: rest => some (String.mk acc.reverse, rest)
  | acc, '\\' :: 'u' :: h1 :: h2 :: h3 :: h4 :: rest =>
    match hexDigitVal h1, hexDigitVal h2, hexDigitVal h3, hexDigitVal h4 with
    | some a, some b, some c, some d =>
      let n := ((a * 16 + b) * 16 + c) * 16 + d
      if 0xD800 ≤ n ∧ n ≤ 0xDBFF then
        match rest with
        | '\\' :: 'u' :: g1 :: g2 :: g3 :: g4 :: rest2 =>
          match hexDigitVal g1, hexDigitVal g2, hexDigitVal g3,
              hexDigitVal g4 with
          | some a2, some b2, some c2, some d2 =>
            let n2 := ((a2 * 16 + b2) * 16 + c2) * 16 + d2
            if 0xDC00 ≤ n2 ∧ n2 ≤ 0xDFFF then
              parseStringAux
                (Char.ofNat
                    (0x10000 + (n - 0xD800) * 0x400 + (n2 - 0xDC00)) :: acc)
                rest2
            else none
          | _, _, _, _ => none
        | _ => none
      else if 0xDC00 ≤ n ∧ n ≤ 0xDFFF then none
      else parseStringAux (Char.ofNat n :: acc) rest
    | _, _, _, _ => none
  | acc, '\\' :: e :: rest =>
    match e with
    | '"' => parseStringAux ('"' :: acc) rest
    | '\\' => parseStringAux ('\\' :: acc) rest
    | '/' => parseStringAux ('/' :: acc) rest
    | 'n' => parseStringAux ('\n' :: acc) rest
    | 't' => parseStringAux ('\t' :: acc) rest
    | 'r' => parseStringAux ('\r' :: acc) rest
    | 'b' => parseStringAux ('\x08' :: acc) rest
    | 'f' => parseStringAux ('\x0c' :: acc) rest
    | _ => none
  | _, '\\' :: [] => none
  | acc, c :: rest =>
    if c.toNat < 0x20 then none else parseStringAux (c :: acc) rest
  | _, [] => none

/-- Take a maximal prefix of decimal digits. -/
def takeDigits : List Char → List Char × List Char
  | [] => ([], [])
  | c :: rest =>
    if c.isDigit then
      let (ds, r) := takeDigits rest
      (c :: ds, r)
    else ([], c :: rest)

/-- Digits to a natural number. -/
def digitsToNat (ds : List Char) : Nat :=
  ds.foldl (fun acc c => acc * 10 + (c.toNat - 48)) 0

/-- Parse the digits of an exponent after the e or E marker: an optional
sign followed by at least one digit. Returns none when no well-formed
exponent follows, in which case the number ends before the marker, exactly
as the longest-match number regular expression of the Python decoder
leaves the marker unconsumed. -/
def parseExponent (cs : List Char) : Option (Int × List Char) :=
  match cs with
  | '+' :: d :: r =>
    if d.isDigit then
      match takeDigits (d :: r) with
      | (ds, rr) => some ((digitsToNat ds : Int), rr)
    else none
  | '-' :: d :: r =>
    if d.isDigit then
      match takeDigits (d :: r) with
      | (ds, rr) => some (-(digitsToNat ds : Int), rr)
    else none
  | d :: r =>
    if d.isDigit then
      match takeDigits (d :: r) with
      | (ds, rr) => some ((digitsToNat ds : Int), rr)
    else none
  | [] => none

/-- Parse a JSON number starting at an optional minus sign, mirroring the
longest-match number regular expression of the Python decoder: the integer
part is the single digit 0 or starts with a nonzero digit (further digits
after a leading zero are left unconsumed, making 05 a decode error in
every position, as in Python), the optional fraction needs at least one
digit after the dot, and the optional exponent needs at least one digit.
A plain integer literal decodes to num; a literal carrying a fraction or
an exponent decodes to real (see Json). -/
def parseNumber (cs : List Char) : Option (Json × List Char) :=
  let signed : Bool × List Char :=
    match cs with
    | '-' :: rest => (true, rest)
    | _ => (false, cs)
  match signed with
  | (neg, cs1) =>
    match cs1 with
    | [] => none
    | c :: rest =>
      if ¬ c.isDigit then none
      else
        let intStep : List Char × List Char :=
          if c = '0' then (['0'], rest) else takeDigits (c :: rest)
        match intStep with
        | (intDs, r1) =>
          let fracStep : List Char × List Char :=
            match r1 with
            | '.' :: d :: r =>
              if d.isDigit then takeDigits (d :: r) else ([], r1)
            | _ => ([], r1)
          match fracStep with
          | (fracDs, r2) =>
            let expStep : Option (Int × List Char) :=
              match r2 with
              | 'e' :: r => parseExponent r
              | 'E' :: r => parseExponent r
              | _ => none
            match expStep with
            | none =>
              if fracDs.isEmpty then
                let n : Int := digitsToNat intDs
                some (Json.num (if neg then -n else n), r2)
              else
                let m : Int := digitsToNat (intDs ++ fracDs)
                some (Json.real (if neg then -m else m)
                  (-(fracDs.length : Int)), r2)
            | some (ex, r3) =>
              let m : Int := digitsToNat (intDs ++ fracDs)
              some (Json.real (if neg then -m else m)
                (ex - (fracDs.length : Int)), r3)

mutual

/-- Fuel-indexed recursive-descent parser for a JSON value, modelling the
strict-mode Python stdlib json.loads: strings with escapes, objects,
arrays, the constants true, false, null, NaN, Infinity and -Infinity, and
numbers by the decoder regular expression. -/
def parseVal : Nat → List Char → Option (Json × List Char)
  | 0, _ => none
  | Nat.succ fuel, cs =>
    match skipWs cs with
    | [] => none
    | '"' :: rest =>
      match parseStringAux [] rest with
      | some (s, r) => some (Json.str s, r)
      | none => none
    | '\x7b' :: rest =>
      match skipWs rest with
      | '\x7d' :: r => some (Json.obj [], r)
      | r => parseMembers fuel r []
    | '[' :: rest =>
      match skipWs rest with
      | ']' :: r => some (Json.arr [], r)
      | r => parseElems fuel r []
    | 't' :: 'r' :: 'u' :: 'e' :: rest => some (Json.bool true, rest)
    | 'f' :: 'a' :: 'l' :: 's' :: 'e' :: rest => some (Json.bool false, rest)
    | 'n' :: 'u' :: 'l' :: 'l' :: rest => some (Json.null, rest)
    | 'N' :: 'a' :: 'N' :: rest => some (Json.nan, rest)
    | 'I' :: 'n' :: 'f' :: 'i' :: 'n' :: 'i' :: 't' :: 'y' :: rest =>
      some (Json.infinity false, rest)
    | '-' :: 'I' :: 'n' :: 'f' :: 'i' :: 'n' :: 'i' :: 't' :: 'y' :: rest =>
      some (Json.infinity true, rest)
    | '-' :: rest => parseNumber ('-' :: rest)
    | c :: rest =>
      if c.isDigit then parseNumber (c :: rest) else none

/-- Parse the members of a JSON object after the opening brace (the empty
object is handled by parseVal). -/
def parseMembers : Nat → List Char → List (String × Json) →
    Option (Json × List Char)
  | 0, _, _ => none
  | Nat.succ fuel, cs, acc =>
    match skipWs cs with
    | '"' :: rest =>
      match parseStringAux [] rest with
      | none => none
      | some (key, r1) =>
        match skipWs r1 with
        | ':' :: r2 =>
          match parseVal fuel (skipWs r2) with
          | none => none
          | some (v, r3) =>
            match skipWs r3 with
            | ',' :: r4 => parseMembers fuel r4 (acc ++ [(key, v)])
            | '\x7d' :: r4 => some (Json.obj (acc ++ [(key, v)]), r4)
            | _ => none
        | _ => none
    | _ => none

/-- Parse the elements of a JSON array after the opening bracket (the empty
array is handled by parseVal). -/
def parseElems : Nat → List Char → List Json → Option (Json × List Char)
  | 0, _, _ => none
  | Nat.succ fuel, cs, acc =>
    match parseVal fuel cs with
    | none => none
    | some (v, r1) =>
      match skipWs r1 with
      | ',' :: r2 => parseElems fuel r2 (acc ++ [v])
      | ']' :: r2 => some (Json.arr (acc ++ [v]), r2)
      | _ => none

end

/-- Model of the Python stdlib call json.loads(s): parse one JSON value and
require only trailing whitespace after it. -/
def json_loads (s : String) : Option Json :=
  let cs := s.toList
  match parseVal (cs.length + 1) cs with
  | some (v, rest) => if skipWs rest = [] then some v else none
  | none => none

/-- The function_call part of a provider message: a function name and the
raw JSON-encoded argument string. -/
structure FunctionCall where
  name : String
  arguments : String

/-- A provider response message as the Python code duck-types it: the
function_call attribute is either absent (none) or a FunctionCall, and the
content attribute is either absent (none) or a string. -/
structure Message where
  function_call : Option FunctionCall
  content : Option String

/-- The classified, user-facing errors of the validator, one constructor per
error_and_exit or logged-exit site in ask_chat_completion_question and
ask_chat_completion_explanation. -/
inductive QQError where
  | MissingFunctionCall : QQError
  | UnexpectedFunction (name : String) : QQError
  | MalformedArguments (raw : String) : QQError
  | MissingField (field : String) : QQError
  | UnrecognizedResponse : QQError

/-- Outcome of running the validator: a returned value, a classified error
(logged, then sys.exit(1)), or an uncaught Python exception that terminates
the process outside the classified error taxonomy. -/
inductive ValidateResult where
  | ok (command : Json) : ValidateResult
  | error (e : QQError) : ValidateResult
  | crash : ValidateResult

/-- Check whether the needle occurs as a contiguous substring of the
haystack, on character lists. -/
def sublistCheck (needle : List Char) : List Char → Bool
  | [] => decide (needle = [])
  | c :: rest => needle.isPrefixOf (c :: rest) || sublistCheck needle rest

/-- The Python membership test: the expression testing whether the string
key occurs in args, where args is a value decoded by json.loads. For a dict
it tests key membership, for a list it tests element equality with the key
(a string equals only an equal string), for a string it tests substring
containment, and for the remaining decoded types (int, float, bool, None)
Python raises an uncaught TypeError, modelled as Except.error. -/
def pyContains (key : String) : Json → Except Unit Bool
  | Json.obj fields => Except.ok (fields.any (fun f => f.1 = key))
  | Json.arr elems =>
    Except.ok (elems.any (fun v =>
      match v with
      | Json.str s => s = key
      | _ => false))
  | Json.str s => Except.ok (sublistCheck key.toList s.toList)
  | _ => Except.error ()

/-- Python subscription args[key] with a string key on a decoded JSON value:
defined for a dict (last binding wins, as in json.loads), a TypeError for
every other decoded type, modelled as none. -/
def pyGetItem (args : Json) (key : String) : Option Json :=
  match args with
  | Json.obj fields => dictGet fields key
  | _ => none

/-- The response-validation portion of ask_chat_completion_question
(src/qq.py lines 228-242), applied to the message returned by the provider:
1. missing function_call attribute: error_and_exit;
2. function name different from run_command: error_and_exit;
3. arguments that json.loads rejects: logged, sys.exit(1);
4. membership test for the key command (may raise TypeError on non-dict
   decoded arguments, which the process does not catch);
5. on absence of the key: error_and_exit; otherwise return args[command]. -/
def ask_chat_completion_question (answer : Message) : ValidateResult :=
  match answer.function_call with
  | none => ValidateResult.error QQError.MissingFunctionCall
  | some fc =>
    if fc.name ≠ "run_command" then
      ValidateResult.error (QQError.UnexpectedFunction fc.name)
    else
      match json_loads fc.arguments with
      | none => ValidateResult.error (QQError.MalformedArguments fc.arguments)
      | some args =>
        match pyContains "command" args with
        | Except.error _ => ValidateResult.crash
        | Except.ok contained =>
          if contained then
            match pyGetItem args "command" with
            | some v => ValidateResult.ok v
            | none => ValidateResult.crash
          else ValidateResult.error (QQError.MissingField "command")

/-- The response-validation portion of ask_chat_completion_explanation
(src/qq.py lines 265-270): a message with a content attribute returns that
content verbatim; otherwise the code logs and exits, which the closed error
taxonomy names UnrecognizedResponse. -/
def ask_chat_completion_explanation (answer : Message) :
    Except QQError String :=
  match answer.content with
  | some c => Except.ok c
  | none => Except.error QQError.UnrecognizedResponse

/-- The host state the environment helpers read. Each field records the
outcome of one host call: platform.system() always yields a string;
platform.freedesktop_os_release() yields the os-release key-value pairs or
raises; the psutil parent-name lookup yields the parent process name or
raises (for example psutil.NoSuchProcess when the parent has exited); the
grandparent-name lookup yields a name or raises (also covering the
AttributeError when the parent of the parent is None). -/
structure Host where
  system : String
  os_release : Except Unit (List (String × String))
  parent_name : Except Unit String
  grandparent_name : Except Unit String

/-- Python dict get with default None on the os-release mapping: last
binding wins. -/
def osGet (info : List (String × String)) (key : String) : Option String :=
  match info with
  | [] => none
  | (k, v) :: rest =>
    match osGet rest key with
    | some r => some r
    | none => if k = key then some v else none

/-- Python truthiness of an optional string: None and the empty string are
falsy. -/
def truthyOpt : Option String → Bool
  | none => false
  | some s => decide (s ≠ "")

/-- The Python expression a or b on optional strings: a when a is truthy,
otherwise b. -/
def pyOr (a b : Option String) : Option String :=
  if truthyOpt a then a else b

/-- detect_os (src/qq.py lines 25-34): total mapping of platform.system()
to an OS label; unrecognised systems yield Unknown, never an exception. -/
def detect_os (h : Host) : String :=
  if h.system = "Linux" then "Linux"
  else if h.system = "Windows" then "Windows"
  else if h.system = "Darwin" then "macOS"
  else "Unknown"

/-- The characters after the last slash, accumulating the current segment
and resetting it on each slash: the Python expression taking the last
element of the split of a name on the slash character. -/
def lastSegAux : List Char → List Char → List Char
  | [], acc => acc.reverse
  | '/' :: rest, _ => lastSegAux rest []
  | c :: rest, acc => lastSegAux rest (c :: acc)

/-- The part of a string after its last slash (the whole string when no
slash occurs). -/
def lastSegment (s : String) : String :=
  String.mk (lastSegAux s.toList [])

/-- detect_shell (src/qq.py lines 36-42): read the parent process name,
unwrap one level if it is qq.exe, and keep the part after the last slash.
No exception handling: a failing psutil lookup propagates. -/
def detect_shell (h : Host) : Except Unit String := do
  let p ← h.parent_name
  let p ← if p = "qq.exe" then h.grandparent_name else pure p
  pure (lastSegment p)

/-- detect_linux_distro (src/qq.py lines 44-70): read the os-release
mapping inside a bare try/except that turns every exception into None, then
prefer PRETTY_NAME, else the first truthy of NAME, ID, ID_LIKE, optionally
suffixed by the first truthy of VERSION, VERSION_ID. -/
def detect_linux_distro (h : Host) : Option String :=
  match h.os_release with
  | Except.error _ => none
  | Except.ok info =>
    let pretty := osGet info "PRETTY_NAME"
    if truthyOpt pretty then pretty
    else
      let namestr := pyOr (pyOr (osGet info "NAME") (osGet info "ID"))
        (osGet info "ID_LIKE")
      if truthyOpt namestr then
        let versionstr := pyOr (osGet info "VERSION") (osGet info "VERSION_ID")
        if truthyOpt versionstr then
          some (namestr.getD "" ++ " " ++ versionstr.getD "")
        else namestr
      else namestr

/-- get_environment_description (src/qq.py lines 72-80): compose the
f-string with the OS line, the distro line when the detected distro is
truthy, and the shell line. A detect_shell failure propagates; distro
detection cannot fail (its helper catches everything). -/
def get_environment_description (h : Host) : Except Unit String := do
  let detected_os := detect_os h
  let detected_shell ← detect_shell h
  let detected_linux_distro := detect_linux_distro h
  pure ("\nOS: " ++ detected_os ++ "\n"
    ++ (if truthyOpt detected_linux_distro then
          "Linux Distro: " ++ detected_linux_distro.getD "" else "")
    ++ "\nShell: " ++ detected_shell ++ "\n")

/-- Python truthiness of a decoded JSON value (None, False, 0, empty
string, empty list and empty dict are falsy). -/
def Json.truthy : Json → Bool
  | Json.null => false
  | Json.bool b => b
  | Json.num n => decide (n ≠ 0)
  | Json.real m _ => decide (m ≠ 0)
  | Json.nan => true
  | Json.infinity _ => true
  | Json.str s => decide (s ≠ "")
  | Json.arr elems => !elems.isEmpty
  | Json.obj fields => !fields.isEmpty

/-- Outcome of get_config_value: a value, or error_and_exit. -/
inductive ConfigResult where
  | ok (v : Json) : ConfigResult
  | fatal : ConfigResult

/-- The config-file half of get_config_value: config_data.get(name,
default), then return it if truthy, else error_and_exit. Note that a key
present with a falsy value shadows the default and is then fatal. -/
def config_file_lookup (config_data : List (String × Json)) (name : String)
    (default_value : Json) : ConfigResult :=
  let v := (dictGet config_data name).getD default_value
  if v.truthy then ConfigResult.ok v else ConfigResult.fatal

/-- get_config_value (src/qq.py lines 297-309): os.getenv first, returned
when truthy (non-empty); otherwise the config-file entry or the supplied
default, returned when truthy, else error_and_exit. The environment is a
partial map from names to strings; an environment hit is returned as a
string value. -/
def get_config_value (env : String → Option String)
    (config_data : List (String × Json)) (config_name : String)
    (default_value : Json) : ConfigResult :=
  match env config_name with
  | some v =>
    if v ≠ "" then ConfigResult.ok (Json.str v)
    else config_file_lookup config_data config_name default_value
  | none => config_file_lookup config_data config_name default_value

/-- The exceptions the completion call can raise, modelled as a flat
enumeration of the openai.error classes named by the except clauses of
openai_chat_completion, plus a constructor for every other exception (the
bare except clause). Each carries its rendered message. -/
inductive ProviderException where
  | apiError (m : String) : ProviderException
  | authenticationError (m : String) : ProviderException
  | apiConnectionError (m : String) : ProviderException
  | invalidRequestError (m : String) : ProviderException
  | rateLimitError (m : String) : ProviderException
  | serviceUnavailableError (m : String) : ProviderException
  | timeoutError (m : String) : ProviderException
  | other (m : String) : ProviderException

/-- The rendered message carried by an exception. -/
def ProviderException.msg : ProviderException → String
  | ProviderException.apiError m => m
  | ProviderException.authenticationError m => m
  | ProviderException.apiConnectionError m => m
  | ProviderException.invalidRequestError m => m
  | ProviderException.rateLimitError m => m
  | ProviderException.serviceUnavailableError m => m
  | ProviderException.timeoutError m => m
  | ProviderException.other m => m

/-- Whether the exception is one of the provider error classes that the
closed taxonomy classifies (everything except the bare-except case). -/
def ProviderException.isClassified : ProviderException → Bool
  | ProviderException.other _ => false
  | _ => true

/-- The log level of a record emitted through the logging module. -/
inductive LogLevel where
  | debug : LogLevel
  | info : LogLevel
  | warning : LogLevel
  | error : LogLevel

/-- Outcome of the completion call: the provider message on success, a
logged record followed by sys.exit(code), or an uncaught exception
terminating the process without the intended log record. -/
inductive CompletionOutcome where
  | success (m : Message) : CompletionOutcome
  | exited (code : Nat) (level : LogLevel) (logMsg : String) :
      CompletionOutcome
  | crash : CompletionOutcome

/-- openai_chat_completion (src/qq.py lines 166-193), applied to the result
of the single request it issues (no retry loop exists): a successful call
returns the first choice message unchanged; each named openai.error class
has one except clause that logs at error level and exits 1; the final bare
except clause references the unbound name e while formatting its log
message, so it raises NameError and the process dies with an uncaught
exception instead of the intended log record. -/
def openai_chat_completion (result : Except ProviderException Message) :
    CompletionOutcome :=
  match result with
  | Except.ok m => CompletionOutcome.success m
  | Except.error e =>
    match e with
    | ProviderException.apiError m =>
      CompletionOutcome.exited 1 LogLevel.error
        ("OpenAI API returned an API Error: " ++ m)
    | ProviderException.authenticationError m =>
      CompletionOutcome.exited 1 LogLevel.error
        ("OpenAI API returned an Authentication Error: " ++ m)
    | ProviderException.apiConnectionError m =>
      CompletionOutcome.exited 1 LogLevel.error
        ("Failed to connect to OpenAI API: " ++ m)
    | ProviderException.invalidRequestError m =>
      CompletionOutcome.exited 1 LogLevel.error
        ("Invalid Request Error: " ++ m)
    | ProviderException.rateLimitError m =>
      CompletionOutcome.exited 1 LogLevel.error
        ("OpenAI API request exceeded rate limit: " ++ m)
    | ProviderException.serviceUnavailableError m =>
      CompletionOutcome.exited 1 LogLevel.error
        ("Service Unavailable: " ++ m)
    | ProviderException.timeoutError m =>
      CompletionOutcome.exited 1 LogLevel.error ("Request timed out: " ++ m)
    | ProviderException.other _ => CompletionOutcome.crash

/-- The fixed text each except clause prepends to the exception message in
its log record, providing the diagnostic context. -/
def classifierText : ProviderException → String
  | ProviderException.apiError _ => "OpenAI API returned an API Error: "
  | ProviderException.authenticationError _ =>
    "OpenAI API returned an Authentication Error: "
  | ProviderException.apiConnectionError _ =>
    "Failed to connect to OpenAI API: "
  | ProviderException.invalidRequestError _ => "Invalid Request Error: "
  | ProviderException.rateLimitError _ =>
    "OpenAI API request exceeded rate limit: "
  | ProviderException.serviceUnavailableError _ => "Service Unavailable: "
  | ProviderException.timeoutError _ => "Request timed out: "
  | ProviderException.other _ => ""

/-- One row of the history table (src/qq.py append_to_history): the
question, the response returned by the validator and the paste buffer. The
auto-increment id and the timestamp are owned by sqlite and not modelled. -/
structure HistoryRecord where
  question : String
  response : Json
  paste_buffer : String

/-- Outcome of one question-mode run of quickquestion. -/
inductive RunOutcome where
  | answered (cmd : Json) : RunOutcome
  | exited (code : Nat) : RunOutcome
  | crashed : RunOutcome

/-- The question path of quickquestion (src/qq.py lines 361-376), given the
history so far, the question, the paste buffer and the outcome of the
single provider request: the completion call either exits, crashes or hands
its message to ask_chat_completion_question; only when validation returns a
command does append_to_history run, appending exactly one record, after
which the answer is printed and copied. Every other path leaves the history
untouched because the process terminates inside the call. -/
def quickquestion_run (history : List HistoryRecord) (q paste_buffer : String)
    (providerResult : Except ProviderException Message) :
    List HistoryRecord × RunOutcome :=
  match openai_chat_completion providerResult with
  | CompletionOutcome.success msg =>
    match ask_chat_completion_question msg with
    | ValidateResult.ok cmd =>
      (history ++ [⟨q, cmd, paste_buffer⟩], RunOutcome.answered cmd)
    | ValidateResult.error _ => (history, RunOutcome.exited 1)
    | ValidateResult.crash => (history, RunOutcome.crashed)
  | CompletionOutcome.exited code _ _ => (history, RunOutcome.exited code)
  | CompletionOutcome.crash => (history, RunOutcome.crashed)

/-- The membership test on a decoded object succeeds exactly when the dict
lookup finds the key: the presence bit of dictGet equals the any-scan that
pyContains performs over the fields. -/
theorem dictGet_isSome_eq_any (key : String) (fields : List (String × Json)) :
    (dictGet fields key).isSome = fields.any (fun f => decide (f.1 = key)) := by
  induction fields with
  | nil => rfl
  | cons hd tl ih =>
    obtain ⟨k, w⟩ := hd
    cases hget : dictGet tl key with
    | some r =>
      rw [hget] at ih
      simp [dictGet, hget, List.any_cons, ← ih]
    | none =>
      rw [hget] at ih
      by_cases hk : k = key
      · simp [dictGet, hget, hk]
      · simp [dictGet, hget, hk, ← ih]

/-- Claim C1: for every provider response carrying a function invocation
named run_command whose argument payload parses as a JSON object holding the
key command with a string value, the validator returns that string as the
validated command. -/
theorem C1_run_command_success (m : Message) (fc : FunctionCall)
    (fields : List (String × Json)) (s : String)
    (hfc : m.function_call = some fc) (hname : fc.name = "run_command")
    (hparse : json_loads fc.arguments = some (Json.obj fields))
    (hget : dictGet fields "command" = some (Json.str s)) :
    ask_chat_completion_question m = ValidateResult.ok (Json.str s) := by
  have hany : fields.any (fun f => decide (f.1 = "command")) = true := by
    rw [← dictGet_isSome_eq_any, hget]; rfl
  simp [ask_chat_completion_question, hfc, hname, hparse, pyContains, hany,
    pyGetItem, hget]

/-- Claim C1, witness: for the argument payload of the specification, the
validator returns the string ls -la. -/
theorem C1_witness :
    ask_chat_completion_question
      ⟨some ⟨"run_command", "\x7b\"command\":\"ls -la\"\x7d"⟩, none⟩
      = ValidateResult.ok (Json.str "ls -la") :=
  C1_run_command_success _ ⟨"run_command", "\x7b\"command\":\"ls -la\"\x7d"⟩
    [("command", Json.str "ls -la")] "ls -la" rfl rfl (by rfl) (by rfl)

/-- Claim C2: for every response carrying a structured function invocation
whose function name differs from run_command, validation fails terminally
with UnexpectedFunction carrying that name, and the outcome is the same for
every argument payload (so the name check precedes any argument parsing)
and is never a validated command. -/
theorem C2_unexpected_function (m : Message) (fc : FunctionCall)
    (hfc : m.function_call = some fc) (hname : fc.name ≠ "run_command") :
    ask_chat_completion_question m
      = ValidateResult.error (QQError.UnexpectedFunction fc.name) ∧
    ∀ args2 content2,
      ask_chat_completion_question ⟨some ⟨fc.name, args2⟩, content2⟩
        = ValidateResult.error (QQError.UnexpectedFunction fc.name) := by
  constructor
  · simp [ask_chat_completion_question, hfc, hname]
  · intro args2 content2
    simp [ask_chat_completion_question, hname]

/-- Claim C2, witness: a function named other_fn fails with
UnexpectedFunction other_fn even though its payload is not even JSON. -/
theorem C2_witness :
    ask_chat_completion_question ⟨some ⟨"other_fn", "\x7bnot json"⟩, none⟩
      = ValidateResult.error (QQError.UnexpectedFunction "other_fn") :=
  (C2_unexpected_function ⟨some ⟨"other_fn", "\x7bnot json"⟩, none⟩
    ⟨"other_fn", "\x7bnot json"⟩ rfl (by decide)).1

/-- Claim C3, amended: for every run_command invocation, the validator
fails with MalformedArguments exactly when the payload does not parse as
JSON, and, when the payload parses as a JSON object, fails with
MissingField command exactly when the key command is absent from the
parsed object. (The original claim, quantified over every parse result,
fails for payloads that parse to a non-object value; see the
counterexample.) -/
theorem C3_amended (m : Message) (fc : FunctionCall)
    (hfc : m.function_call = some fc) (hname : fc.name = "run_command") :
    ((ask_chat_completion_question m
        = ValidateResult.error (QQError.MalformedArguments fc.arguments))
      ↔ json_loads fc.arguments = none) ∧
    ∀ fields, json_loads fc.arguments = some (Json.obj fields) →
      ((ask_chat_completion_question m
          = ValidateResult.error (QQError.MissingField "command"))
        ↔ dictGet fields "command" = none) := by
  constructor
  · cases hparse : json_loads fc.arguments with
    | none => simp [ask_chat_completion_question, hfc, hname, hparse]
    | some args =>
      cases hc : pyContains "command" args with
      | error u =>
        simp [ask_chat_completion_question, hfc, hname, hparse, hc]
      | ok b =>
        cases b with
        | false =>
          simp [ask_chat_completion_question, hfc, hname, hparse, hc]
        | true =>
          cases hg : pyGetItem args "command" with
          | none =>
            simp [ask_chat_completion_question, hfc, hname, hparse, hc, hg]
          | some v =>
            simp [ask_chat_completion_question, hfc, hname, hparse, hc, hg]
  · intro fields hparse
    cases hany : fields.any (fun f => decide (f.1 = "command")) with
    | false =>
      have hnone : dictGet fields "command" = none := by
        have hiff := dictGet_isSome_eq_any "command" fields
        rw [hany] at hiff
        exact Option.not_isSome_iff_eq_none.1 (by rw [hiff]; simp)
      simp [ask_chat_completion_question, hfc, hname, hparse, pyContains,
        hany, hnone]
    | true =>
      have hsome : (dictGet fields "command").isSome = true := by
        rw [dictGet_isSome_eq_any, hany]
      cases hg : dictGet fields "command" with
      | none => rw [hg] at hsome; cases hsome
      | some v =>
        simp [ask_chat_completion_question, hfc, hname, hparse, pyContains,
          hany, pyGetItem, hg]

/-- Claim C3, counterexample to the original wording: the payload true
parses as JSON and the key command is absent from the parsed value, yet the
validator does not fail with MissingField command; it dies in the
membership test instead. -/
theorem C3_counterexample :
    json_loads "true" = some (Json.bool true) ∧
    ask_chat_completion_question ⟨some ⟨"run_command", "true"⟩, none⟩
      = ValidateResult.crash ∧
    ask_chat_completion_question ⟨some ⟨"run_command", "true"⟩, none⟩
      ≠ ValidateResult.error (QQError.MissingField "command") :=
  ⟨rfl, rfl, fun h => ValidateResult.noConfusion h⟩

/-- Claim C3, witness: the empty-object payload parses, lacks the key
command, and fails with MissingField command. -/
theorem C3_witness :
    ask_chat_completion_question ⟨some ⟨"run_command", "\x7b\x7d"⟩, none⟩
      = ValidateResult.error (QQError.MissingField "command") :=
  ((C3_amended ⟨some ⟨"run_command", "\x7b\x7d"⟩, none⟩
    ⟨"run_command", "\x7b\x7d"⟩ rfl rfl).2 [] (by rfl)).2 rfl

/-- Claim C4: in explanation mode, every response carrying free-text
content is returned verbatim as the explanation, and every response with
neither a function call nor content fails terminally with
UnrecognizedResponse. -/
theorem C4_explanation_mode (m : Message) :
    (∀ c, m.content = some c →
      ask_chat_completion_explanation m = Except.ok c) ∧
    (m.function_call = none → m.content = none →
      ask_chat_completion_explanation m
        = Except.error QQError.UnrecognizedResponse) := by
  constructor
  · intro c hc
    simp [ask_chat_completion_explanation, hc]
  · intro _ hc
    simp [ask_chat_completion_explanation, hc]

/-- Claim C4, witness: the content It lists files. is returned verbatim. -/
theorem C4_witness :
    ask_chat_completion_explanation ⟨none, some "It lists files."⟩
      = Except.ok "It lists files." :=
  (C4_explanation_mode ⟨none, some "It lists files."⟩).1 "It lists files." rfl

/-- Claim C5, counterexample to the original wording: a host whose parent
process has disappeared makes the psutil name lookup raise, and
get_environment_description propagates that exception even though OS and
distro detection both behave; the describer is not exception-free for every
host state. -/
theorem C5_counterexample :
    get_environment_description
      ⟨"Linux", Except.ok [("PRETTY_NAME", "Ubuntu 22.04 LTS")],
        Except.error (), Except.error ()⟩
      = Except.error () := rfl

/-- Claim C5, amended: whenever shell detection succeeds,
get_environment_description succeeds (OS detection is total and distro
detection catches every exception), and when distro detection fails the
distro line is omitted from the description while the call still
succeeds. -/
theorem C5_amended (h : Host) (shell : String)
    (hs : detect_shell h = Except.ok shell) :
    (∃ s, get_environment_description h = Except.ok s) ∧
    ∀ e, h.os_release = Except.error e →
      get_environment_description h
        = Except.ok ("\nOS: " ++ detect_os h ++ "\n" ++ "\nShell: " ++ shell
            ++ "\n") := by
  constructor
  · refine ⟨"\nOS: " ++ detect_os h ++ "\n"
      ++ (if truthyOpt (detect_linux_distro h) then
            "Linux Distro: " ++ (detect_linux_distro h).getD "" else "")
      ++ "\nShell: " ++ shell ++ "\n", ?_⟩
    simp [get_environment_description, hs, Bind.bind, Except.bind,
      Pure.pure, Except.pure]
  · intro e hre
    have hd : detect_linux_distro h = none := by
      simp [detect_linux_distro, hre]
    simp [get_environment_description, hs, hd, Bind.bind, Except.bind,
      Pure.pure, Except.pure, truthyOpt]

/-- Claim C5, witness: a host whose os-release lookup raises but whose
shell is bash yields the description with the distro line omitted. -/
theorem C5_witness :
    get_environment_description
      ⟨"Linux", Except.error (), Except.ok "bash", Except.ok "sh"⟩
      = Except.ok "\nOS: Linux\n\nShell: bash\n" :=
  (C5_amended ⟨"Linux", Except.error (), Except.ok "bash", Except.ok "sh"⟩
    "bash" (by rfl)).2 () rfl

/-- Claim C6, counterexample to the original wording: an environment
variable set to the empty string defines the key, yet the config-file value
is returned instead of the empty environment value. -/
theorem C6_counterexample :
    (fun k => if k = "OPENAI_MODEL" then some "" else none) "OPENAI_MODEL"
      = some "" ∧
    dictGet [("OPENAI_MODEL", Json.str "gpt-4")] "OPENAI_MODEL"
      = some (Json.str "gpt-4") ∧
    get_config_value (fun k => if k = "OPENAI_MODEL" then some "" else none)
      [("OPENAI_MODEL", Json.str "gpt-4")] "OPENAI_MODEL" Json.null
      = ConfigResult.ok (Json.str "gpt-4") ∧
    Json.str "gpt-4" ≠ Json.str "" := by
  refine ⟨rfl, rfl, rfl, ?_⟩
  intro h
  exact absurd (Json.str.inj h) (by decide)

/-- Claim C6, amended: resolution follows environment variable first, then
config-file entry, then built-in default, where a level only supplies a
value it holds as truthy: a non-empty environment value always wins; with
the environment unset or empty, a truthy config-file entry is returned; and
with the key also absent from the config file, a truthy default is
returned. -/
theorem C6_amended (env : String → Option String)
    (config_data : List (String × Json)) (name : String)
    (default_value : Json) :
    (∀ v, env name = some v → v ≠ "" →
      get_config_value env config_data name default_value
        = ConfigResult.ok (Json.str v)) ∧
    ((env name = none ∨ env name = some "") →
      (∀ c, dictGet config_data name = some c → c.truthy = true →
        get_config_value env config_data name default_value
          = ConfigResult.ok c) ∧
      (dictGet config_data name = none → default_value.truthy = true →
        get_config_value env config_data name default_value
          = ConfigResult.ok default_value)) := by
  constructor
  · intro v hv hne
    simp [get_config_value, hv, hne]
  · intro henv
    constructor
    · intro c hc htruthy
      cases henv with
      | inl h =>
        simp [get_config_value, h, config_file_lookup, hc, htruthy]
      | inr h =>
        simp [get_config_value, h, config_file_lookup, hc, htruthy]
    · intro hc htruthy
      cases henv with
      | inl h =>
        simp [get_config_value, h, config_file_lookup, hc, htruthy]
      | inr h =>
        simp [get_config_value, h, config_file_lookup, hc, htruthy]

/-- Claim C6, witness: with both an environment value and a config-file
entry present, the non-empty environment value is returned. -/
theorem C6_witness :
    get_config_value
      (fun k => if k = "OPENAI_API_KEY" then some "sk-123" else none)
      [("OPENAI_API_KEY", Json.str "from-file")] "OPENAI_API_KEY" Json.null
      = ConfigResult.ok (Json.str "sk-123") :=
  (C6_amended (fun k => if k = "OPENAI_API_KEY" then some "sk-123" else none)
    [("OPENAI_API_KEY", Json.str "from-file")] "OPENAI_API_KEY" Json.null).1
    "sk-123" (by rfl) (by decide)

/-- Claim C7: every provider exception of the closed taxonomy is classified
by exactly one handler, logged at error level with its classification text
and the exception message as diagnostic context, and makes the process exit
with the non-zero code 1; none of them yields a provider message (so none
is retried or recovered into a response) and none is logged below error
level. -/
theorem C7_classified_errors (e : ProviderException)
    (hc : e.isClassified = true) :
    openai_chat_completion (Except.error e)
      = CompletionOutcome.exited 1 LogLevel.error
          (classifierText e ++ e.msg) ∧
    ∀ m, openai_chat_completion (Except.error e)
      ≠ CompletionOutcome.success m := by
  cases e with
  | apiError m => exact ⟨rfl, fun m h => CompletionOutcome.noConfusion h⟩
  | authenticationError m =>
    exact ⟨rfl, fun m h => CompletionOutcome.noConfusion h⟩
  | apiConnectionError m =>
    exact ⟨rfl, fun m h => CompletionOutcome.noConfusion h⟩
  | invalidRequestError m =>
    exact ⟨rfl, fun m h => CompletionOutcome.noConfusion h⟩
  | rateLimitError m =>
    exact ⟨rfl, fun m h => CompletionOutcome.noConfusion h⟩
  | serviceUnavailableError m =>
    exact ⟨rfl, fun m h => CompletionOutcome.noConfusion h⟩
  | timeoutError m =>
    exact ⟨rfl, fun m h => CompletionOutcome.noConfusion h⟩
  | other m => simp [ProviderException.isClassified] at hc

/-- Claim C7, witness: a rate-limit exception exits with code 1 and an
error-level log carrying the classification text and the message. -/
theorem C7_witness :
    openai_chat_completion
      (Except.error (ProviderException.rateLimitError "too many requests"))
      = CompletionOutcome.exited 1 LogLevel.error
          ("OpenAI API request exceeded rate limit: "
            ++ "too many requests") :=
  (C7_classified_errors
    (ProviderException.rateLimitError "too many requests") rfl).1

/-- Claim C8: a successful round trip appends exactly one history record,
holding the question, the validated command and the paste buffer, and every
run that does not answer (classified completion error, classified
validation error, or an uncaught exception) leaves the history exactly as
it was. -/
theorem C8_history_append (history : List HistoryRecord)
    (q paste_buffer : String) (r : Except ProviderException Message) :
    (∀ cmd,
      (quickquestion_run history q paste_buffer r).2 = RunOutcome.answered cmd →
      (quickquestion_run history q paste_buffer r).1
        = history ++ [⟨q, cmd, paste_buffer⟩]) ∧
    ((∀ cmd,
      (quickquestion_run history q paste_buffer r).2 ≠ RunOutcome.answered cmd) →
      (quickquestion_run history q paste_buffer r).1 = history) := by
  cases hco : openai_chat_completion r with
  | success msg =>
    cases hv : ask_chat_completion_question msg with
    | ok cmd =>
      refine ⟨fun cmd2 h2 => ?_, fun hall => ?_⟩
      · have h3 : RunOutcome.answered cmd = RunOutcome.answered cmd2 := by
          simpa [quickquestion_run, hco, hv] using h2
        have h4 : cmd = cmd2 := by injection h3
        simp [quickquestion_run, hco, hv, h4]
      · exact absurd
          (show (quickquestion_run history q paste_buffer r).2
              = RunOutcome.answered cmd by simp [quickquestion_run, hco, hv])
          (hall cmd)
    | error e =>
      refine ⟨fun cmd2 h2 => ?_, fun _ => ?_⟩
      · simp [quickquestion_run, hco, hv] at h2
      · simp [quickquestion_run, hco, hv]
    | crash =>
      refine ⟨fun cmd2 h2 => ?_, fun _ => ?_⟩
      · simp [quickquestion_run, hco, hv] at h2
      · simp [quickquestion_run, hco, hv]
  | exited code lvl lm =>
    refine ⟨fun cmd2 h2 => ?_, fun _ => ?_⟩
    · simp [quickquestion_run, hco] at h2
    · simp [quickquestion_run, hco]
  | crash =>
    refine ⟨fun cmd2 h2 => ?_, fun _ => ?_⟩
    · simp [quickquestion_run, hco] at h2
    · simp [quickquestion_run, hco]

/-- Claim C8, witness: a successful round trip starting from an empty
history appends exactly the one record with the question, the command and
the paste buffer. -/
theorem C8_witness :
    (quickquestion_run [] "list files" ""
      (Except.ok ⟨some ⟨"run_command", "\x7b\"command\":\"ls -la\"\x7d"⟩,
        none⟩)).1
      = [] ++ [⟨"list files", Json.str "ls -la", ""⟩] :=
  (C8_history_append [] "list files" ""
    (Except.ok ⟨some ⟨"run_command", "\x7b\"command\":\"ls -la\"\x7d"⟩,
      none⟩)).1 (Json.str "ls -la") (by rfl)

/-- Claim C9: get_config_value treats falsy values as absent: an
environment variable holding the empty string is skipped in favour of the
config-file lookup, and when the value found in the config file (or, with
the key absent there, the supplied default) is falsy, the lookup is a fatal
error instead of returning that value. -/
theorem C9_falsy_config (env : String → Option String)
    (config_data : List (String × Json)) (name : String)
    (default_value : Json) :
    (env name = some "" →
      get_config_value env config_data name default_value
        = config_file_lookup config_data name default_value) ∧
    ((env name = none ∨ env name = some "") →
      ((dictGet config_data name).getD default_value).truthy = false →
      get_config_value env config_data name default_value
        = ConfigResult.fatal) := by
  constructor
  · intro h
    simp [get_config_value, h]
  · intro henv hfalsy
    cases henv with
    | inl h => simp [get_config_value, h, config_file_lookup, hfalsy]
    | inr h => simp [get_config_value, h, config_file_lookup, hfalsy]

/-- Claim C9, witness: with no environment value and a config-file entry
holding the empty string, the lookup is fatal. -/
theorem C9_witness :
    get_config_value (fun _ => none) [("OPENAI_MODEL", Json.str "")]
      "OPENAI_MODEL" Json.null = ConfigResult.fatal :=
  (C9_falsy_config (fun _ => none) [("OPENAI_MODEL", Json.str "")]
    "OPENAI_MODEL" Json.null).2 (Or.inl rfl) (by rfl)

/-- Claim C10: the payload 5 is a well-formed run_command invocation whose
arguments parse as JSON but not as a JSON object; the membership test for
the key command raises a TypeError that nothing catches, so the invocation
terminates outside the classified error taxonomy instead of producing a
MissingField or MalformedArguments error. -/
theorem C10_nonobject_arguments_crash :
    json_loads "5" = some (Json.num 5) ∧
    pyContains "command" (Json.num 5) = Except.error () ∧
    ask_chat_completion_question ⟨some ⟨"run_command", "5"⟩, none⟩
      = ValidateResult.crash :=
  ⟨rfl, rfl, rfl⟩

end QQ

